import Mathlib

/-
Verification of the Airvibe session relay engine.

The repository contains several prototype variants of the same server:
* the header-caching relay variant in `src/unnamed/part_000` ("master server"):
  in-memory `rooms` and `audioHeaders` objects, socket events `broadcaster`,
  `audioStream`, `joinEvent`, `stopBroadcast`, `disconnect`, helper `closeRoom`;
* the session-table variant in `src/server.js`: `streams` / `users` Maps, events
  `create-stream`, `join-stream`, `leave-stream`, `end-stream`, `disconnect`,
  plus three preloaded mock streams;
* the second variant inside `src/unnamed/part_000` whose `join-stream` handler
  enforces the `maxListeners` capacity cap;
* the global-chat variant in `src/unnamed/part_001` with the bounded
  `chatHistory` buffer.

Each variant is embedded below as an explicit state machine.  The Node.js
runtime executes each socket handler atomically (single-threaded event loop),
so one inbound socket event is one step of the state machine.  Socket ids and
room names are strings; binary audio chunks are byte lists.  Event emission is
modelled by recording, at emit time, the payload together with the resolved
set of recipient sockets.
-/

namespace Airvibe

abbrev Sid := String

/-- A binary media chunk (a Buffer of bytes).  Over the socket.io transport a
chunk arrives as a binary Buffer, which is a JavaScript object and hence
truthy even when empty; `audioHeaders[room]` being absent or `null` is the
only falsy case of the `!audioHeaders[roomID]` test in the source. -/
abbrev Chunk := List Nat

/-- Lookup in an insertion-ordered string-keyed map (JS `Map` / plain object). -/
def alookup (k : String) : List (String × α) → Option α
  | [] => none
  | (k', v) :: rest => if k' = k then some v else alookup k rest

/-- `Map.set` / property assignment: overwrite in place if the key is present
(keeping insertion order), otherwise append at the end. -/
def aset (k : String) (v : α) : List (String × α) → List (String × α)
  | [] => [(k, v)]
  | (k', v') :: rest => if k' = k then (k, v) :: rest else (k', v') :: aset k v rest

/-- `Map.delete` / the `delete` operator: remove the entries with this key. -/
def adel (k : String) : List (String × α) → List (String × α)
  | [] => []
  | (k', v') :: rest => if k' = k then adel k rest else (k', v') :: adel k rest

/-- Keys of the map, in insertion order. -/
def akeys (m : List (String × α)) : List String := m.map (·.1)

/-- JavaScript `a || d` for a possibly-missing string `a`: the default is
used when `a` is `undefined` or the empty string (both falsy). -/
def jsOrStr : Option String → String → String
  | none, d => d
  | some s, d => if s = "" then d else s

/-- JavaScript `a || d` for a possibly-missing number `a`: the default is
used when `a` is `undefined` or `0` (both falsy). -/
def jsOrInt : Option Int → Int → Int
  | none, d => d
  | some n, d => if n = 0 then d else n

/-- JavaScript `String.prototype.trim()`: strip leading and trailing
whitespace (an executable translation over the string's character list). -/
def jsTrim (s : String) : String :=
  ⟨((s.data.dropWhile Char.isWhitespace).reverse.dropWhile Char.isWhitespace).reverse⟩

/-- `socket.join(room)`: membership pairs `(socket, room)`; joining twice is a
no-op. -/
def joinRoom (sock room : Sid) (m : List (Sid × Sid)) : List (Sid × Sid) :=
  if (sock, room) ∈ m then m else (sock, room) :: m

/- ====================================================================
   Model M: the header-caching relay ("AIRVIBE MASTER SERVER" variant,
   src/unnamed/part_000, socket section).
   ==================================================================== -/

/-- A room record created by the `broadcaster` handler: the room id is the
host's socket id. -/
structure Room where
  id : Sid
  host : String
  title : String
  mimeType : String
  listeners : Int
  startTime : Nat
deriving DecidableEq, Repr

/-- State of the relay variant.  `received sid` is the ordered list of chunks
delivered to socket `sid` via `audioBuffer` emissions (both the cached-header
injection on join and the live relay).  The `volatile` relay may drop packets
for a lagging listener; dropping only removes later entries of `received`, so
the ordering theorems below hold a fortiori for what is actually delivered. -/
structure MState where
  rooms : List (Sid × Room)
  audioHeaders : List (Sid × Chunk)
  membership : List (Sid × Sid)
  received : Sid → List Chunk

/-- Inbound socket events of the relay variant.  `audioStream` carries the
sender socket and the `data.room` field; `joinEvent` carries the joining
socket and the target room id. -/
inductive MEvent
  | broadcaster (sid host title mimeType : String) (now : Nat)
  | audioStream (sender room : Sid) (chunk : Chunk)
  | joinEvent (sid room : Sid)
  | stopBroadcast (sid : Sid)
  | disconnect (sid : Sid)
deriving DecidableEq, Repr

/-- `closeRoom(socketId)`: delete the room record and its cached header; a
missing room is a no-op (the helper is guarded by `if (rooms[socketId])`). -/
def closeRoom (sid : Sid) (st : MState) : MState :=
  match alookup sid st.rooms with
  | none => st
  | some _ =>
      { st with rooms := adel sid st.rooms, audioHeaders := adel sid st.audioHeaders }

/-- One socket event of the relay variant, exactly as handled in the source:
* `broadcaster`: store `rooms[socket.id]`, reset `audioHeaders[socket.id]` to
  null, `socket.join(socket.id)`;
* `audioStream`: return if the room does not exist, else cache the chunk when
  no header is cached yet, then relay to every room member except the sender
  (`socket.to(roomID).volatile.emit`);
* `joinEvent`: if the room exists, join it, increment its listener count and,
  when a header is cached, emit it to the joining socket immediately;
* `stopBroadcast` / `disconnect`: `closeRoom`; a disconnecting socket has
  also left all its rooms by the time the handler runs. -/
def mstep (st : MState) : MEvent → MState
  | .broadcaster sid host title mimeType now =>
      { st with
        rooms := aset sid ⟨sid, host, title, mimeType, 0, now⟩ st.rooms,
        audioHeaders := adel sid st.audioHeaders,
        membership := joinRoom sid sid st.membership }
  | .audioStream sender room chunk =>
      match alookup room st.rooms with
      | none => st
      | some _ =>
          { st with
            audioHeaders :=
              match alookup room st.audioHeaders with
              | none => aset room chunk st.audioHeaders
              | some _ => st.audioHeaders,
            received := fun x =>
              if (x, room) ∈ st.membership ∧ x ≠ sender then
                st.received x ++ [chunk]
              else st.received x }
  | .joinEvent sid room =>
      match alookup room st.rooms with
      | none => st
      | some rm =>
          let st1 : MState :=
            { st with
              membership := joinRoom sid room st.membership,
              rooms := aset room { rm with listeners := rm.listeners + 1 } st.rooms }
          match alookup room st.audioHeaders with
          | none => st1
          | some h =>
              { st1 with
                received := fun x =>
                  if x = sid then st1.received x ++ [h] else st1.received x }
  | .stopBroadcast sid => closeRoom sid st
  | .disconnect sid =>
      let st1 := closeRoom sid st
      { st1 with membership := st1.membership.filter (fun p => p.1 ≠ sid) }

/-- The empty initial state of the relay variant. -/
def initM : MState := ⟨[], [], [], fun _ => []⟩

/-- Run a list of socket events from the initial state. -/
def runM (evs : List MEvent) : MState := evs.foldl mstep initM

/-- An event that resets or deletes room `r`'s cached-header slot: a new
`broadcaster` registration under the same socket id, or closing the room. -/
def resetsRoom (r : Sid) : MEvent → Bool
  | .broadcaster sid _ _ _ _ => sid == r
  | .stopBroadcast sid => sid == r
  | .disconnect sid => sid == r
  | _ => false

/- ====================================================================
   Model S: the session-table variant (src/server.js), with its three
   preloaded mock streams.
   ==================================================================== -/

/-- The `host` object stored inside a stream record. -/
structure Host where
  id : String
  name : String
  peerId : Option String
deriving DecidableEq, Repr

/-- One entry of a stream's `listenersList`. -/
structure Listener where
  id : String
  name : String
  peerId : Option String
  joinedAt : Nat
deriving DecidableEq, Repr

/-- A stream record of `src/server.js` (the `streamData` object). -/
structure Stream where
  id : String
  title : String
  description : String
  host : Host
  category : String
  thumbnail : String
  listeners : Int
  maxListeners : Int
  isLive : Bool
  isPrivate : Bool
  password : Option String
  tags : List String
  createdAt : Nat
  startedAt : Nat
  listenersList : List Listener
deriving DecidableEq, Repr

/-- The `type` field of a user record: `'listener'` or `'host'`. -/
inductive Role
  | listener
  | host
deriving DecidableEq, Repr

/-- A connected user (the `users` Map entry). -/
structure User where
  id : String
  name : String
  type : Role
  joinedAt : Nat
  currentRoom : Option String
  peerId : Option String
  streamId : Option String
deriving DecidableEq, Repr

/-- One element of the summary array built by `broadcastStreamList` and the
initial `stream-list` emission. -/
structure StreamSummary where
  id : String
  title : String
  description : String
  host : Host
  category : String
  thumbnail : String
  listeners : Int
  maxListeners : Int
  isLive : Bool
  isPrivate : Bool
  tags : List String
  createdAt : Nat
  startedAt : Nat
  uptime : Nat
deriving DecidableEq, Repr

/-- Outbound socket.io events of the session-table variants. -/
inductive EvOut
  | streamList (l : List StreamSummary)
  | streamListRaw (l : List Stream)
  | streamCreatedSuccess (st : Stream)
  | streamError (msg : String)
  | streamJoined (st : Stream)
  | newListener (listenerId : String) (peerId : Option String) (name : String)
  | listenerJoined (streamId listener : String) (total : Int)
  | listenerLeft (streamId listener : String) (total : Int)
  | streamEnded (streamId reason : String)
deriving DecidableEq, Repr

/-- An emission: the payload together with the sockets it was addressed to,
resolved at emit time. -/
structure Emit where
  recipients : List String
  ev : EvOut
deriving DecidableEq, Repr

/-- State of the session-table variant.  `membership` holds `(socket, room)`
pairs for `socket.join`; on connect each socket also joins its personal room
(named by its own id), which is what `socket.to(someSocketId)` targets. -/
structure SState where
  streams : List (String × Stream)
  users : List (String × User)
  membership : List (String × String)
  emitted : List Emit
deriving DecidableEq, Repr

/-- Sockets currently in a room (used to resolve `io.to(room)`). -/
def roomMembers (s : SState) (room : String) : List String :=
  (s.membership.filter (fun p => p.2 == room)).map (·.1)

/-- All connected sockets (used to resolve `io.emit`). -/
def connectedIds (s : SState) : List String := akeys s.users

/-- Record one emission. -/
def emit1 (targets : List String) (ev : EvOut) (s : SState) : SState :=
  { s with emitted := s.emitted ++ [⟨targets, ev⟩] }

/-- The summary object built for each live stream, with
`uptime = Math.floor((Date.now() - startedAt) / 1000)`. -/
def summarize (now : Nat) (st : Stream) : StreamSummary :=
  ⟨st.id, st.title, st.description, st.host, st.category, st.thumbnail,
   st.listeners, st.maxListeners, st.isLive, st.isPrivate, st.tags,
   st.createdAt, st.startedAt, (now - st.startedAt) / 1000⟩

/-- `Array.from(streams.values()).filter(s => s.isLive).map(summary)`. -/
def activeStreamSummaries (now : Nat) (s : SState) : List StreamSummary :=
  ((s.streams.map (·.2)).filter (fun st => st.isLive)).map (summarize now)

/-- `listLiveSessions()`: the summary list of non-destroyed live sessions. -/
def listLiveSessions (now : Nat) (s : SState) : List StreamSummary :=
  activeStreamSummaries now s

/-- `broadcastStreamList()`: `io.emit("stream-list", …)` to every client. -/
def broadcastStreamList (now : Nat) (s : SState) : SState :=
  emit1 (connectedIds s) (.streamList (activeStreamSummaries now s)) s

/-- The optional fields of a `create-stream` payload. -/
structure CreateData where
  title : Option String
  description : Option String
  hostName : Option String
  peerId : Option String
  category : Option String
  thumbnail : Option String
  maxListeners : Option Int
deriving DecidableEq, Repr

/-- Inbound events of the session-table variant.  `Date.now()` readings are
passed in as `now`.  `generateStreamId` produces a fresh token from the
timestamp and a random suffix; the generated id is passed in as `newId`. -/
inductive SEvent
  | connect (sid name : String) (now : Nat)
  | createStream (sid : String) (d : CreateData) (newId : String) (now : Nat)
  | joinStream (sid streamId : String) (peerId : Option String)
      (uname : Option String) (now : Nat)
  | leaveStream (sid streamId : String) (now : Nat)
  | endStream (sid streamId reason : String) (now : Nat)
  | disconnect (sid : String) (now : Nat)
deriving DecidableEq, Repr

/-- `io.on('connection')`: register the user (a fresh guest name is generated
server-side and passed in here), auto-join the personal room, and send the
current live stream list to the new socket only. -/
def onConnect (sid name : String) (now : Nat) (s : SState) : SState :=
  let s1 : SState :=
    { s with
      users := aset sid ⟨sid, name, .listener, now, none, none, none⟩ s.users,
      membership := joinRoom sid sid s.membership }
  emit1 [sid] (.streamList (activeStreamSummaries now s1)) s1

/-- `socket.on('create-stream')`: build the stream record, register it, join
the host to the stream room, rebind the host's user record, broadcast the new
list and confirm to the caller.  There is no already-producing check anywhere
in the handler.  (The handler reads `users.get(socket.id)`; a socket only has
handlers while it is connected, and the registry always holds an entry for a
connected socket, so the missing-user case cannot fire and is mapped to a
no-op.) -/
def onCreateStream (sid : String) (d : CreateData) (newId : String) (now : Nat)
    (s : SState) : SState :=
  match alookup sid s.users with
  | none => s
  | some hostInfo =>
      let hname := jsOrStr d.hostName hostInfo.name
      let cat := jsOrStr d.category "general"
      let streamData : Stream :=
        { id := newId
          title := jsOrStr d.title "Untitled Stream"
          description := jsOrStr d.description "Join my live broadcast!"
          host := ⟨sid, hname, d.peerId⟩
          category := cat
          thumbnail := jsOrStr d.thumbnail
            ("https://api.dicebear.com/7.x/shapes/svg?seed=" ++ newId)
          listeners := 0
          maxListeners := jsOrInt d.maxListeners 1000
          isLive := true
          isPrivate := false
          password := none
          tags := [cat]
          createdAt := now
          startedAt := now
          listenersList := [] }
      let s1 : SState :=
        { s with
          streams := aset newId streamData s.streams,
          membership := joinRoom sid newId s.membership,
          users := aset sid
            { hostInfo with
              currentRoom := some newId, type := .host,
              streamId := some newId, name := hname } s.users }
      let s2 := broadcastStreamList now s1
      emit1 [sid] (.streamCreatedSuccess streamData) s2

/-- `socket.on('join-stream')` of `src/server.js`: unknown stream id reports
`"Stream not found"` back to the caller and changes nothing; otherwise join
the room, update the user, increment the count, append to `listenersList`,
and emit the four notifications.  This variant performs no capacity check. -/
def onJoinStream (sid streamId : String) (peerId : Option String)
    (uname : Option String) (now : Nat) (s : SState) : SState :=
  match alookup sid s.users with
  | none => s
  | some u =>
      match alookup streamId s.streams with
      | none => emit1 [sid] (.streamError "Stream not found") s
      | some stream =>
          let uname' := jsOrStr uname u.name
          let stream1 : Stream :=
            { stream with
              listeners := stream.listeners + 1,
              listenersList := stream.listenersList ++ [⟨sid, uname', peerId, now⟩] }
          let s1 : SState :=
            { s with
              membership := joinRoom sid streamId s.membership,
              users := aset sid
                { u with currentRoom := some streamId, name := uname',
                         peerId := peerId } s.users,
              streams := aset streamId stream1 s.streams }
          let s2 := emit1 [sid] (.streamJoined stream1) s1
          let s3 := emit1 ((roomMembers s2 stream.host.id).filter (fun x => x ≠ sid))
            (.newListener sid peerId uname') s2
          let s4 := emit1 (roomMembers s3 streamId)
            (.listenerJoined streamId uname' stream1.listeners) s3
          broadcastStreamList now s4

/-- `socket.on('leave-stream')`: a missing stream id is a no-op; otherwise
leave the room, decrement the count clamped at zero
(`Math.max(0, listeners - 1)`), filter the socket out of `listenersList`,
notify the room and everyone, and finally clear the user's `currentRoom`.
Nothing checks that the caller was actually joined to this stream. -/
def onLeaveStream (sid streamId : String) (now : Nat) (s : SState) : SState :=
  match alookup sid s.users with
  | none => s
  | some u =>
      match alookup streamId s.streams with
      | none => s
      | some stream =>
          let stream1 : Stream :=
            { stream with
              listeners := max 0 (stream.listeners - 1),
              listenersList := stream.listenersList.filter (fun l => l.id ≠ sid) }
          let s1 : SState :=
            { s with
              membership :=
                s.membership.filter (fun p => ¬(p.1 = sid ∧ p.2 = streamId)),
              streams := aset streamId stream1 s.streams }
          let s2 := emit1 (roomMembers s1 streamId)
            (.listenerLeft streamId u.name stream1.listeners) s1
          let s3 := broadcastStreamList now s2
          { s3 with users := aset sid { u with currentRoom := none } s3.users }

/-- `socket.on('end-stream')`: a missing stream id is a no-op; otherwise
notify the room, delete the stream, downgrade the calling user, and
broadcast the updated list. -/
def onEndStream (sid streamId reason : String) (now : Nat) (s : SState) : SState :=
  match alookup sid s.users with
  | none => s
  | some u =>
      match alookup streamId s.streams with
      | none => s
      | some _ =>
          let s1 := emit1 (roomMembers s streamId) (.streamEnded streamId reason) s
          let s2 : SState := { s1 with streams := adel streamId s1.streams }
          let s3 : SState :=
            { s2 with
              users := aset sid
                { u with currentRoom := none, type := .listener,
                         streamId := none } s2.users }
          broadcastStreamList now s3

/-- The host branch of the `disconnect` handler: if the disconnecting user
was hosting and the stream is still present, emit `stream-ended` to its room,
delete it and broadcast the updated list. -/
def onDisconnectHost (u : User) (now : Nat) (s0 : SState) : SState :=
  match u.type, u.streamId with
  | .host, some t =>
      match alookup t s0.streams with
      | none => s0
      | some _ =>
          let sa := emit1 (roomMembers s0 t) (.streamEnded t "Host disconnected") s0
          broadcastStreamList now { sa with streams := adel t sa.streams }
  | _, _ => s0

/-- The listener branch of the `disconnect` handler: if the user's
`currentRoom` still names an existing stream, decrement its count (clamped at
zero), filter its `listenersList`, notify the room and broadcast the list. -/
def onDisconnectRoom (sid : String) (u : User) (now : Nat) (s1 : SState) : SState :=
  match u.currentRoom with
  | none => s1
  | some r =>
      match alookup r s1.streams with
      | none => s1
      | some stream =>
          let stream1 : Stream :=
            { stream with
              listeners := max 0 (stream.listeners - 1),
              listenersList := stream.listenersList.filter (fun l => l.id ≠ sid) }
          let sb : SState := { s1 with streams := aset r stream1 s1.streams }
          let sc := emit1 (roomMembers sb r)
            (.listenerLeft r u.name stream1.listeners) sb
          broadcastStreamList now sc

/-- `socket.on('disconnect')`: the socket has already left all its rooms when
the handler runs (membership filter).  Then the host branch, the
listener-room branch, and finally the user is deleted from the registry. -/
def onDisconnect (sid : String) (now : Nat) (s : SState) : SState :=
  match alookup sid s.users with
  | none => s
  | some u =>
      let s0 : SState := { s with membership := s.membership.filter (fun p => p.1 ≠ sid) }
      let s2 : SState := onDisconnectRoom sid u now (onDisconnectHost u now s0)
      { s2 with users := adel sid s2.users }

/-- Dispatch one inbound event of the session-table variant. -/
def sstep (s : SState) : SEvent → SState
  | .connect sid name now => onConnect sid name now s
  | .createStream sid d newId now => onCreateStream sid d newId now s
  | .joinStream sid streamId peerId uname now => onJoinStream sid streamId peerId uname now s
  | .leaveStream sid streamId now => onLeaveStream sid streamId now s
  | .endStream sid streamId reason now => onEndStream sid streamId reason now s
  | .disconnect sid now => onDisconnect sid now s

/-- Mock stream `stream_1` preloaded at startup (`now0` is `Date.now()` at
module load). -/
def mock1 (now0 : Nat) : Stream :=
  { id := "stream_1", title := "Chill LoFi Beats"
    description := "Relaxing music for studying and working"
    host := ⟨"host_1", "DJ Chill", some "peer123"⟩
    category := "music"
    thumbnail := "https://api.dicebear.com/7.x/shapes/svg?seed=lofi"
    listeners := 42, maxListeners := 1000, isLive := true, isPrivate := false
    password := none, tags := ["music", "lofi", "chill"]
    createdAt := now0 - 3600000, startedAt := now0 - 3600000, listenersList := [] }

/-- Mock stream `stream_2` preloaded at startup. -/
def mock2 (now0 : Nat) : Stream :=
  { id := "stream_2", title := "Tech Talk Live"
    description := "Discussing latest tech news and innovations"
    host := ⟨"host_2", "Tech Guru", some "peer456"⟩
    category := "tech"
    thumbnail := "https://api.dicebear.com/7.x/shapes/svg?seed=tech"
    listeners := 28, maxListeners := 500, isLive := true, isPrivate := false
    password := none, tags := ["tech", "discussion", "news"]
    createdAt := now0 - 1800000, startedAt := now0 - 1800000, listenersList := [] }

/-- Mock stream `stream_3` preloaded at startup. -/
def mock3 (now0 : Nat) : Stream :=
  { id := "stream_3", title := "Morning Meditation"
    description := "Start your day with peace and mindfulness"
    host := ⟨"host_3", "Zen Master", some "peer789"⟩
    category := "wellness"
    thumbnail := "https://api.dicebear.com/7.x/shapes/svg?seed=meditation"
    listeners := 15, maxListeners := 200, isLive := true, isPrivate := false
    password := none, tags := ["wellness", "meditation", "peace"]
    createdAt := now0 - 900000, startedAt := now0 - 900000, listenersList := [] }

/-- Startup state of `src/server.js`: the three mock streams are inserted
into the `streams` Map before any connection arrives; `users` is empty. -/
def initS (now0 : Nat) : SState :=
  { streams := [("stream_1", mock1 now0), ("stream_2", mock2 now0), ("stream_3", mock3 now0)]
    users := [], membership := [], emitted := [] }

/-- Run a list of events from the startup state. -/
def runS (now0 : Nat) (evs : List SEvent) : SState := evs.foldl sstep (initS now0)

/-- The stream-error emissions contained in an emission log. -/
def errorsOf (l : List Emit) : List Emit :=
  l.filter (fun e => match e.ev with | .streamError _ => true | _ => false)

/-- Every stream in the table has a non-negative listener count. -/
def countsNonneg (m : List (String × Stream)) : Prop :=
  ∀ p ∈ m, 0 ≤ p.2.listeners

/- ====================================================================
   The `join-stream` handler of the second variant in
   src/unnamed/part_000, which enforces the password and the
   `maxListeners` capacity cap before any state change.
   ==================================================================== -/

/-- `socket.on('join-stream')` of the capacity-checking variant: reject with
`"Stream not found"` for an unknown id, `"Incorrect password"` for a private
stream with a wrong password, and `"Stream is full"` when
`listeners >= maxListeners`; each rejection happens before `socket.join` and
before any count or list mutation.  The success path mirrors the
`src/server.js` handler, except that the final broadcast sends the raw,
unfiltered stream records. -/
def onJoinStreamV2 (sid streamId : String) (peerId : Option String)
    (uname : Option String) (password : Option String) (now : Nat)
    (s : SState) : SState :=
  match alookup sid s.users with
  | none => s
  | some u =>
      match alookup streamId s.streams with
      | none => emit1 [sid] (.streamError "Stream not found") s
      | some stream =>
          if stream.isPrivate ∧ password ≠ stream.password then
            emit1 [sid] (.streamError "Incorrect password") s
          else if stream.maxListeners ≤ stream.listeners then
            emit1 [sid] (.streamError "Stream is full") s
          else
            let uname' := jsOrStr uname u.name
            let stream1 : Stream :=
              { stream with
                listeners := stream.listeners + 1,
                listenersList := stream.listenersList ++ [⟨sid, uname', peerId, now⟩] }
            let s1 : SState :=
              { s with
                membership := joinRoom sid streamId s.membership,
                users := aset sid
                  { u with currentRoom := some streamId, name := uname',
                           peerId := peerId } s.users,
                streams := aset streamId stream1 s.streams }
            let s2 := emit1 [sid] (.streamJoined stream1) s1
            let s3 := emit1 ((roomMembers s2 stream.host.id).filter (fun x => x ≠ sid))
              (.newListener sid peerId uname') s2
            let s4 := emit1 (roomMembers s3 streamId)
              (.listenerJoined streamId uname' stream1.listeners) s3
            emit1 (connectedIds s4) (.streamListRaw (s4.streams.map (·.2))) s4

/- ====================================================================
   Model C: the global-chat variant (src/unnamed/part_001) and its
   `chatHistory` buffer.
   ==================================================================== -/

/-- One chat-history entry.  `mtype` is the source's `type` field (`system`,
`user`, `host`, `gift-announce`). -/
structure Msg where
  user : String
  msg : String
  mtype : String
  isHost : Bool
  color : String
  ts : Nat
deriving DecidableEq, Repr

/-- One `onlineUsers` entry of the chat variant. -/
structure CUser where
  name : String
  isHost : Bool
  role : String
deriving DecidableEq, Repr

/-- State of the chat variant: the history buffer, the online-user map and
the current host socket (if any). -/
structure CState where
  chatHistory : List Msg
  onlineUsers : List (String × CUser)
  hostSocketId : Option String
deriving DecidableEq, Repr

/-- `chatHistory.push(m); if (chatHistory.length > 100) chatHistory.shift();`
— the bounded append used by the `user-join`, `chatMessage` and `sendGift`
handlers. -/
def pushTrim (hist : List Msg) (m : Msg) : List Msg :=
  let h := hist ++ [m]
  if 100 < h.length then h.tail else h

/-- The system message appended when a user joins the chat. -/
def joinMsgOf (name : String) (ts : Nat) : Msg :=
  ⟨"SYSTEM", name ++ " joined the chat", "system", false, "", ts⟩

/-- The system message appended when the host goes live. -/
def liveMsgOf (ts : Nat) : Msg :=
  ⟨"SYSTEM", "Host is now LIVE!", "system", false, "", ts⟩

/-- The system message appended when a user leaves the chat. -/
def leaveMsgOf (name : String) (ts : Nat) : Msg :=
  ⟨"SYSTEM", name ++ " left the chat", "system", false, "", ts⟩

/-- The system message appended when the host goes offline. -/
def offlineMsgOf (ts : Nat) : Msg :=
  ⟨"SYSTEM", "Host went offline", "system", false, "", ts⟩

/-- The gift announcement appended to the history by `sendGift`. -/
def giftMsgOf (userName gift : String) (ts : Nat) : Msg :=
  ⟨"SYSTEM", userName ++ " sent a " ++ gift ++ " gift!", "gift-announce", false, "", ts⟩

/-- Inbound events of the chat variant that touch `chatHistory` or
`onlineUsers`.  Optional payload fields of the client message are passed as
options; `ts` is `Date.now()`. -/
inductive CEvent
  | userJoin (sid : String) (name : Option String) (isHost : Option Bool)
      (role : Option String) (ts : Nat)
  | chatMessage (sid : String) (duser : Option String) (msg : Option String)
      (color : Option String) (ts : Nat)
  | sendGift (sid : String) (duser : Option String) (gift : Option String) (ts : Nat)
  | hostReady (sid peerId : String) (ts : Nat)
  | disconnect (sid : String) (ts : Nat)
deriving DecidableEq, Repr

/-- One socket event of the chat variant, as handled in the source:
* `user-join`: register the user, then `pushTrim` a join notice;
* `chatMessage`: resolve the author, drop the message if its trimmed text is
  empty, otherwise `pushTrim` it;
* `sendGift`: `pushTrim` the gift announcement;
* `host-ready`: rebind the user as HOST and push the live notice with a bare
  `chatHistory.push` — no bound check;
* `disconnect`: if the socket was known, push the leave notice (bare push),
  delete the user and, when the host left, push the offline notice (bare
  push) and clear the host binding. -/
def cstep (st : CState) : CEvent → CState
  | .userJoin sid name isHost role ts =>
      let nm := jsOrStr name "Anonymous"
      { st with
        onlineUsers := aset sid ⟨nm, isHost.getD false, jsOrStr role "listener"⟩ st.onlineUsers,
        chatHistory := pushTrim st.chatHistory (joinMsgOf nm ts) }
  | .chatMessage sid duser dmsg dcolor ts =>
      let userInfo := alookup sid st.onlineUsers
      let userName := jsOrStr (userInfo.map (·.name)) (jsOrStr duser "Guest")
      let isHost := (userInfo.map (·.isHost)).getD false
      let text := jsOrStr dmsg ""
      let m : Msg :=
        ⟨userName, text, if isHost then "host" else "user", isHost,
         jsOrStr dcolor (if isHost then "#ef4444" else "#3b82f6"), ts⟩
      if jsTrim text = "" then st
      else { st with chatHistory := pushTrim st.chatHistory m }
  | .sendGift sid duser gift ts =>
      let userInfo := alookup sid st.onlineUsers
      let userName := jsOrStr (userInfo.map (·.name)) (jsOrStr duser "Guest")
      { st with
        chatHistory := pushTrim st.chatHistory (giftMsgOf userName (jsOrStr gift "❤️") ts) }
  | .hostReady sid _peerId ts =>
      { st with
        onlineUsers := aset sid ⟨"HOST", true, "host"⟩ st.onlineUsers,
        hostSocketId := some sid,
        chatHistory := st.chatHistory ++ [liveMsgOf ts] }
  | .disconnect sid ts =>
      match alookup sid st.onlineUsers with
      | none => st
      | some userInfo =>
          let st1 : CState :=
            { st with
              chatHistory := st.chatHistory ++ [leaveMsgOf userInfo.name ts],
              onlineUsers := adel sid st.onlineUsers }
          if st.hostSocketId = some sid then
            { st1 with
              chatHistory := st1.chatHistory ++ [offlineMsgOf ts],
              hostSocketId := none }
          else st1

/-- The empty startup state of the chat variant. -/
def initC : CState := ⟨[], [], none⟩

/-- Run a list of chat events from the startup state. -/
def runC (evs : List CEvent) : CState := evs.foldl cstep initC

/- ====================================================================
   Helper lemmas about the map operations.
   ==================================================================== -/

theorem alookup_aset_self (k : String) (v : α) (m : List (String × α)) :
    alookup k (aset k v m) = some v := by
  induction m with
  | nil => simp [aset, alookup]
  | cons p rest ih =>
      by_cases h : p.1 = k
      · obtain ⟨k', v'⟩ := p
        simp only at h
        simp [aset, alookup, h]
      · obtain ⟨k', v'⟩ := p
        simp only at h
        simp [aset, alookup, h, ih]

theorem alookup_aset_ne (k k' : String) (v : α) (m : List (String × α))
    (h : k ≠ k') : alookup k (aset k' v m) = alookup k m := by
  have h' : k' ≠ k := Ne.symm h
  induction m with
  | nil => simp [aset, alookup, h']
  | cons p rest ih =>
      obtain ⟨a, b⟩ := p
      by_cases ha : a = k'
      · subst ha
        simp [aset, alookup, h']
      · by_cases hk : a = k
        · subst hk
          simp [aset, alookup, ha]
        · simp [aset, alookup, ha, hk, ih]

theorem alookup_adel_self (k : String) (m : List (String × α)) :
    alookup k (adel k m) = none := by
  induction m with
  | nil => simp [adel, alookup]
  | cons p rest ih =>
      obtain ⟨a, b⟩ := p
      by_cases ha : a = k
      · simp [adel, ha, ih]
      · simp [adel, alookup, ha, ih]

theorem alookup_adel_ne (k k' : String) (m : List (String × α))
    (h : k ≠ k') : alookup k (adel k' m) = alookup k m := by
  have h' : k' ≠ k := Ne.symm h
  induction m with
  | nil => simp [adel, alookup]
  | cons p rest ih =>
      obtain ⟨a, b⟩ := p
      by_cases ha : a = k'
      · subst ha
        simp [adel, alookup, h', ih]
      · simp [adel, alookup, ha, ih]

theorem mem_aset (p : String × α) (k : String) (v : α) (m : List (String × α))
    (h : p ∈ aset k v m) : p = (k, v) ∨ p ∈ m := by
  induction m with
  | nil =>
      simp only [aset, List.mem_singleton] at h
      exact .inl h
  | cons q rest ih =>
      obtain ⟨a, b⟩ := q
      by_cases ha : a = k
      · rw [aset, if_pos ha] at h
        rcases List.mem_cons.mp h with h1 | h1
        · exact .inl h1
        · exact .inr (List.mem_cons_of_mem _ h1)
      · rw [aset, if_neg ha] at h
        rcases List.mem_cons.mp h with h1 | h1
        · exact .inr (by simp [h1])
        · rcases ih h1 with h2 | h2
          · exact .inl h2
          · exact .inr (List.mem_cons_of_mem _ h2)

theorem mem_adel (p : String × α) (k : String) (m : List (String × α))
    (h : p ∈ adel k m) : p ∈ m := by
  induction m with
  | nil => simp [adel] at h
  | cons q rest ih =>
      obtain ⟨a, b⟩ := q
      by_cases ha : a = k
      · rw [adel, if_pos ha] at h
        exact List.mem_cons_of_mem _ (ih h)
      · rw [adel, if_neg ha] at h
        rcases List.mem_cons.mp h with h1 | h1
        · simp [h1]
        · exact List.mem_cons_of_mem _ (ih h1)

theorem alookup_mem (k : String) (v : α) (m : List (String × α))
    (h : alookup k m = some v) : (k, v) ∈ m := by
  induction m with
  | nil => simp [alookup] at h
  | cons q rest ih =>
      obtain ⟨a, b⟩ := q
      by_cases ha : a = k
      · subst ha
        rw [alookup, if_pos rfl] at h
        obtain rfl : b = v := Option.some.injEq _ _ ▸ h
        exact List.mem_cons_self _ _
      · rw [alookup, if_neg ha] at h
        exact List.mem_cons_of_mem _ (ih h)

theorem mem_roomMembers (s : SState) (room c : String) :
    c ∈ roomMembers s room ↔ (c, room) ∈ s.membership := by
  simp only [roomMembers, List.mem_map, List.mem_filter]
  constructor
  · rintro ⟨⟨a, b⟩, ⟨hm, hb⟩, rfl⟩
    simp only [beq_iff_eq] at hb
    simpa [hb] using hm
  · intro h
    exact ⟨(c, room), ⟨h, by simp⟩, rfl⟩

/- ====================================================================
   C10: preloaded mock sessions.
   ==================================================================== -/

/-- C10: at process start, before any connection arrives, the session table
already contains the three preloaded sessions `stream_1`, `stream_2`,
`stream_3`, all marked live with nonzero listener counts, whose producer
connection ids (`host_1`, `host_2`, `host_3`) correspond to no live
connection (the user registry is empty); and the `stream-list` sent to a
newly connecting client consists exactly of these three sessions'
summaries. -/
theorem c10_preloaded_mock_sessions (now0 now : Nat) (sid name : String) :
    alookup "stream_1" (initS now0).streams = some (mock1 now0)
    ∧ alookup "stream_2" (initS now0).streams = some (mock2 now0)
    ∧ alookup "stream_3" (initS now0).streams = some (mock3 now0)
    ∧ (mock1 now0).isLive = true ∧ (mock2 now0).isLive = true
    ∧ (mock3 now0).isLive = true
    ∧ 0 < (mock1 now0).listeners ∧ 0 < (mock2 now0).listeners
    ∧ 0 < (mock3 now0).listeners
    ∧ (initS now0).users = []
    ∧ alookup (mock1 now0).host.id (initS now0).users = none
    ∧ alookup (mock2 now0).host.id (initS now0).users = none
    ∧ alookup (mock3 now0).host.id (initS now0).users = none
    ∧ (sstep (initS now0) (.connect sid name now)).emitted =
        [⟨[sid], .streamList [summarize now (mock1 now0), summarize now (mock2 now0),
            summarize now (mock3 now0)]⟩] :=
  ⟨rfl, rfl, rfl, rfl, rfl, rfl, by norm_num [mock1], by norm_num [mock2],
   by norm_num [mock3], rfl, rfl, rfl, rfl, rfl⟩

/- ====================================================================
   C3: the count invariant — counterexample and amended theorem.
   ==================================================================== -/

/-- C3 counterexample: already after the empty sequence of join, leave and
disconnect events, session `stream_1` has listener count 42 while the set of
consumer connections bound to it (`listenersList`) is empty, so the count
does not equal the number of bound consumers. -/
theorem c3_counterexample :
    (alookup "stream_1" (initS 0).streams).map Stream.listeners = some 42
    ∧ (alookup "stream_1" (initS 0).streams).map
        (fun st => (st.listenersList.length : Int)) = some 0
    ∧ (42 : Int) ≠ 0 := by decide

/- ====================================================================
   C4: producer-disconnect destruction — counterexample.
   ==================================================================== -/

/-- C4 counterexample: from process start, `stream_1` is a live session whose
producer connection id `host_1` corresponds to no live connection, and it
appears in `listLiveSessions()`; so a session whose producer connection is
dead does exist. -/
theorem c4_counterexample :
    (alookup "stream_1" (initS 0).streams).map Stream.isLive = some true
    ∧ (alookup "stream_1" (initS 0).streams).map (fun st => st.host.id) = some "host_1"
    ∧ alookup "host_1" (initS 0).users = none
    ∧ (listLiveSessions 0 (initS 0)).map StreamSummary.id =
        ["stream_1", "stream_2", "stream_3"] := by decide

/- ====================================================================
   C6: idempotent leave — counterexample.
   ==================================================================== -/

/-- C6 counterexample: host `h` creates session `S`; consumers `c1` and `c2`
join (count 2); `c1` leaves once (count 1); `c1` leaves a second time.  The
second leave changes the listener count again — from 1 down to 0 — even
though `c1` is no longer joined, while `c2` is still in `listenersList`;
hence leave is not idempotent and a leave by a non-joined connection is not a
no-op. -/
theorem c6_counterexample :
    (alookup "S" (runS 0
      [.connect "h" "H" 0,
       .createStream "h" ⟨none, none, none, none, none, none, none⟩ "S" 0,
       .connect "c1" "C1" 0, .connect "c2" "C2" 0,
       .joinStream "c1" "S" none none 0, .joinStream "c2" "S" none none 0,
       .leaveStream "c1" "S" 0]).streams).map Stream.listeners = some 1
    ∧ (alookup "S" (runS 0
      [.connect "h" "H" 0,
       .createStream "h" ⟨none, none, none, none, none, none, none⟩ "S" 0,
       .connect "c1" "C1" 0, .connect "c2" "C2" 0,
       .joinStream "c1" "S" none none 0, .joinStream "c2" "S" none none 0,
       .leaveStream "c1" "S" 0, .leaveStream "c1" "S" 0]).streams).map
        Stream.listeners = some 0
    ∧ (alookup "S" (runS 0
      [.connect "h" "H" 0,
       .createStream "h" ⟨none, none, none, none, none, none, none⟩ "S" 0,
       .connect "c1" "C1" 0, .connect "c2" "C2" 0,
       .joinStream "c1" "S" none none 0, .joinStream "c2" "S" none none 0,
       .leaveStream "c1" "S" 0, .leaveStream "c1" "S" 0]).streams).map
        (fun st => st.listenersList.map (·.id)) = some ["c2"]
    ∧ (1 : Int) ≠ 0 := by decide

/- ====================================================================
   C7: AlreadyProducing — counterexample.
   ==================================================================== -/

/-- C7 counterexample: connection `p` creates a session and, while still
bound as its producer, creates a second one.  The second call succeeds — both
sessions are registered, `p` is rebound to the new one, and no error of any
kind is reported — so there is no `AlreadyProducing` failure. -/
theorem c7_counterexample :
    (alookup "A" (runS 0
      [.connect "p" "P" 0,
       .createStream "p" ⟨none, none, none, none, none, none, none⟩ "A" 1,
       .createStream "p" ⟨none, none, none, none, none, none, none⟩ "B" 2]).streams).isSome
        = true
    ∧ (alookup "B" (runS 0
      [.connect "p" "P" 0,
       .createStream "p" ⟨none, none, none, none, none, none, none⟩ "A" 1,
       .createStream "p" ⟨none, none, none, none, none, none, none⟩ "B" 2]).streams).isSome
        = true
    ∧ errorsOf (runS 0
      [.connect "p" "P" 0,
       .createStream "p" ⟨none, none, none, none, none, none, none⟩ "A" 1,
       .createStream "p" ⟨none, none, none, none, none, none, none⟩ "B" 2]).emitted = []
    ∧ (alookup "p" (runS 0
      [.connect "p" "P" 0,
       .createStream "p" ⟨none, none, none, none, none, none, none⟩ "A" 1,
       .createStream "p" ⟨none, none, none, none, none, none, none⟩ "B" 2]).users).map
        User.streamId = some (some "B") := by decide

/- ====================================================================
   C2: unauthorized submission — counterexample.
   ==================================================================== -/

/-- C2 counterexample: `p` goes live (room `p`), consumer `c` joins; then
connection `q`, which is not the session's producer, submits the chunk `[7]`
naming room `p`.  The submission passes the handler's only check (room
existence): the chunk is delivered to consumer `c` and even becomes the
session's cached initialization chunk — not rejected. -/
theorem c2_counterexample :
    (runM [.broadcaster "p" "Host" "Show" "audio/webm" 0,
           .joinEvent "c" "p", .audioStream "q" "p" [7]]).received "c" = [[7]]
    ∧ alookup "p" (runM [.broadcaster "p" "Host" "Show" "audio/webm" 0,
        .joinEvent "c" "p", .audioStream "q" "p" [7]]).audioHeaders = some [7]
    ∧ (alookup "p" (runM [.broadcaster "p" "Host" "Show" "audio/webm" 0,
        .joinEvent "c" "p", .audioStream "q" "p" [7]]).rooms).map Room.id = some "p"
    ∧ ("q" : String) ≠ "p" := by decide

/- ====================================================================
   Relay-variant lemmas: deliveries only ever append, and the cached
   header is stable under non-destroying events.
   ==================================================================== -/

theorem closeRoom_received (sid : Sid) (st : MState) :
    (closeRoom sid st).received = st.received := by
  unfold closeRoom
  cases alookup sid st.rooms <;> rfl

theorem mstep_received_mono (st : MState) (e : MEvent) (c : Sid) :
    ∃ t, (mstep st e).received c = st.received c ++ t := by
  cases e with
  | broadcaster sid host title mimeType now => exact ⟨[], by simp [mstep]⟩
  | audioStream sender room chunk =>
      cases h : alookup room st.rooms with
      | none => exact ⟨[], by simp [mstep, h]⟩
      | some rm =>
          by_cases hm : (c, room) ∈ st.membership ∧ c ≠ sender
          · exact ⟨[chunk], by simp [mstep, h, hm]⟩
          · exact ⟨[], by simp [mstep, h, hm]⟩
  | joinEvent sid room =>
      cases h : alookup room st.rooms with
      | none => exact ⟨[], by simp [mstep, h]⟩
      | some rm =>
          cases hh : alookup room st.audioHeaders with
          | none => exact ⟨[], by simp [mstep, h, hh]⟩
          | some hd =>
              by_cases hc : c = sid
              · exact ⟨[hd], by simp [mstep, h, hh, hc]⟩
              · exact ⟨[], by simp [mstep, h, hh, hc]⟩
  | stopBroadcast sid => exact ⟨[], by simp [mstep, closeRoom_received]⟩
  | disconnect sid => exact ⟨[], by simp [mstep, closeRoom_received]⟩

theorem foldl_received_mono (evs : List MEvent) (st : MState) (c : Sid) :
    ∃ t, (evs.foldl mstep st).received c = st.received c ++ t := by
  induction evs generalizing st with
  | nil => exact ⟨[], by simp⟩
  | cons e rest ih =>
      obtain ⟨t2, h2⟩ := ih (mstep st e)
      obtain ⟨t1, h1⟩ := mstep_received_mono st e c
      exact ⟨t1 ++ t2, by simp only [List.foldl_cons]; rw [h2, h1, List.append_assoc]⟩

theorem mstep_header_preserved (st : MState) (e : MEvent) (r : Sid) (h : Chunk)
    (hkeep : resetsRoom r e = false)
    (hh : alookup r st.audioHeaders = some h) :
    alookup r (mstep st e).audioHeaders = some h := by
  cases e with
  | broadcaster sid host title mimeType now =>
      have hne : r ≠ sid := by
        intro hr
        simp [resetsRoom, hr] at hkeep
      simpa [mstep, alookup_adel_ne r sid _ hne] using hh
  | audioStream sender room chunk =>
      cases hro : alookup room st.rooms with
      | none => simpa [mstep, hro] using hh
      | some rm =>
          cases hh2 : alookup room st.audioHeaders with
          | none =>
              have hne : r ≠ room := by
                intro hr
                rw [hr] at hh
                rw [hh] at hh2
                exact Option.noConfusion hh2
              simpa [mstep, hro, hh2, alookup_aset_ne r room _ _ hne] using hh
          | some _ => simpa [mstep, hro, hh2] using hh
  | joinEvent sid room =>
      cases hro : alookup room st.rooms with
      | none => simpa [mstep, hro] using hh
      | some rm =>
          cases hh2 : alookup room st.audioHeaders with
          | none => simpa [mstep, hro, hh2] using hh
          | some _ => simpa [mstep, hro, hh2] using hh
  | stopBroadcast sid =>
      have hne : r ≠ sid := by
        intro hr
        simp [resetsRoom, hr] at hkeep
      cases hro : alookup sid st.rooms with
      | none => simpa [mstep, closeRoom, hro] using hh
      | some rm => simpa [mstep, closeRoom, hro, alookup_adel_ne r sid _ hne] using hh
  | disconnect sid =>
      have hne : r ≠ sid := by
        intro hr
        simp [resetsRoom, hr] at hkeep
      cases hro : alookup sid st.rooms with
      | none => simpa [mstep, closeRoom, hro] using hh
      | some rm => simpa [mstep, closeRoom, hro, alookup_adel_ne r sid _ hne] using hh

theorem foldl_header_preserved (evs : List MEvent) (st : MState) (r : Sid) (h : Chunk)
    (hkeep : ∀ e ∈ evs, resetsRoom r e = false)
    (hh : alookup r st.audioHeaders = some h) :
    alookup r (evs.foldl mstep st).audioHeaders = some h := by
  induction evs generalizing st with
  | nil => simpa using hh
  | cons e rest ih =>
      simp only [List.foldl_cons]
      exact ih (mstep st e)
        (fun e' he' => hkeep e' (List.mem_cons_of_mem _ he'))
        (mstep_header_preserved st e r h (hkeep e (List.mem_cons_self _ _)) hh)

/- ====================================================================
   C1: cache-then-live ordering.
   ==================================================================== -/

/-- C1: in the relay variant, consider any history `pre` of events after
which room `r` exists with cached initialization chunk `h` and socket `c` has
received nothing yet.  Processing `c`'s join delivers exactly `[h]` to `c` —
immediately, within the same atomic `joinEvent` handler — and after any
further events `post` (in particular the submission of any later chunk),
everything `c` has received comes strictly after `h`, which remains its first
received chunk.  If instead no chunk is cached at join time, the join
delivers nothing to `c`. -/
theorem c1_cache_then_live (pre post : List MEvent) (c r : Sid) :
    (∀ h rm, alookup r (runM pre).rooms = some rm →
      alookup r (runM pre).audioHeaders = some h →
      (runM pre).received c = [] →
      (runM (pre ++ [MEvent.joinEvent c r])).received c = [h]
      ∧ ∃ rest, (runM (pre ++ MEvent.joinEvent c r :: post)).received c = h :: rest)
    ∧ (alookup r (runM pre).audioHeaders = none →
      (runM (pre ++ [MEvent.joinEvent c r])).received c = (runM pre).received c) := by
  constructor
  · intro h rm hroom hhdr hrecv
    have hstep : (runM (pre ++ [MEvent.joinEvent c r])).received c = [h] := by
      rw [runM, List.foldl_append]
      simp only [List.foldl_cons, List.foldl_nil]
      rw [show List.foldl mstep initM pre = runM pre from rfl]
      simp [mstep, hroom, hhdr, hrecv]
    refine ⟨hstep, ?_⟩
    have hsplit : runM (pre ++ MEvent.joinEvent c r :: post)
        = post.foldl mstep (runM (pre ++ [MEvent.joinEvent c r])) := by
      rw [runM, runM, ← List.foldl_append]
      simp
    obtain ⟨t, ht⟩ := foldl_received_mono post (runM (pre ++ [MEvent.joinEvent c r])) c
    refine ⟨t, ?_⟩
    rw [hsplit, ht, hstep]
    rfl
  · intro hnone
    rw [runM, List.foldl_append]
    simp only [List.foldl_cons, List.foldl_nil]
    rw [show List.foldl mstep initM pre = runM pre from rfl]
    cases hroom : alookup r (runM pre).rooms with
    | none => simp [mstep, hroom]
    | some rm => simp [mstep, hroom, hnone]

/-- C1 witness: `p` goes live and submits chunk `[1]` (cached); consumer `c`
joins, receiving exactly `[1]`; then `p` submits `[2]`, and `c`'s receive
log is `[1]` followed by a remainder. -/
theorem c1_cache_then_live_witness :
    alookup "p" (runM [.broadcaster "p" "Host" "Show" "audio/webm" 0,
      .audioStream "p" "p" [1]]).rooms
        = some ⟨"p", "Host", "Show", "audio/webm", 0, 0⟩
    ∧ alookup "p" (runM [.broadcaster "p" "Host" "Show" "audio/webm" 0,
        .audioStream "p" "p" [1]]).audioHeaders = some [1]
    ∧ (runM [.broadcaster "p" "Host" "Show" "audio/webm" 0,
        .audioStream "p" "p" [1]]).received "c" = []
    ∧ ((runM ([.broadcaster "p" "Host" "Show" "audio/webm" 0,
          .audioStream "p" "p" [1]] ++ [MEvent.joinEvent "c" "p"])).received "c" = [[1]]
      ∧ ∃ rest, (runM ([.broadcaster "p" "Host" "Show" "audio/webm" 0,
          .audioStream "p" "p" [1]]
            ++ MEvent.joinEvent "c" "p" :: [.audioStream "p" "p" [2]])).received "c"
          = [1] :: rest) :=
  ⟨by decide, by decide, by decide,
   (c1_cache_then_live [.broadcaster "p" "Host" "Show" "audio/webm" 0,
      .audioStream "p" "p" [1]] [.audioStream "p" "p" [2]] "c" "p").1
     [1] ⟨"p", "Host", "Show", "audio/webm", 0, 0⟩ (by decide) (by decide) (by decide)⟩

/- ====================================================================
   C2: amended theorem.
   ==================================================================== -/

/-- C2 amended: a chunk submission naming a nonexistent session id is
rejected silently — the state (cache, deliveries, everything) is unchanged
and nothing is surfaced to the caller; but the submitter's producer binding
is not checked: a submission naming an existing session, from any connection
`q`, is relayed to every room member other than the sender. -/
theorem c2_amended_no_producer_check (st : MState) (q room : Sid) (ch : Chunk) :
    (alookup room st.rooms = none → mstep st (.audioStream q room ch) = st)
    ∧ (∀ rm, alookup room st.rooms = some rm →
        ∀ x, (x, room) ∈ st.membership → x ≠ q →
          (mstep st (.audioStream q room ch)).received x = st.received x ++ [ch]) := by
  constructor
  · intro h
    simp [mstep, h]
  · intro rm h x hx hq
    simp [mstep, h, hx, hq]

/-- C2 amended witness: in the concrete state after `p` goes live and `c`
joins, a submission naming the dead room `"ghost"` leaves the state
unchanged, and `q`'s spoofed submission to room `p` is relayed to member
`c`. -/
theorem c2_amended_no_producer_check_witness :
    alookup "ghost" (runM [.broadcaster "p" "Host" "Show" "audio/webm" 0,
      .joinEvent "c" "p"]).rooms = none
    ∧ mstep (runM [.broadcaster "p" "Host" "Show" "audio/webm" 0, .joinEvent "c" "p"])
        (.audioStream "q" "ghost" [7])
      = runM [.broadcaster "p" "Host" "Show" "audio/webm" 0, .joinEvent "c" "p"]
    ∧ (mstep (runM [.broadcaster "p" "Host" "Show" "audio/webm" 0, .joinEvent "c" "p"])
        (.audioStream "q" "p" [7])).received "c"
      = (runM [.broadcaster "p" "Host" "Show" "audio/webm" 0,
          .joinEvent "c" "p"]).received "c" ++ [[7]] :=
  ⟨by decide,
   (c2_amended_no_producer_check
     (runM [.broadcaster "p" "Host" "Show" "audio/webm" 0, .joinEvent "c" "p"])
     "q" "ghost" [7]).1 (by decide),
   (c2_amended_no_producer_check
     (runM [.broadcaster "p" "Host" "Show" "audio/webm" 0, .joinEvent "c" "p"])
     "q" "p" [7]).2 ⟨"p", "Host", "Show", "audio/webm", 1, 0⟩ (by decide) "c"
     (by decide) (by decide)⟩

/- ====================================================================
   C5: the cached initialization chunk.
   ==================================================================== -/

/-- C5: the first chunk submitted to an existing session whose cache slot is
empty is stored verbatim as the cached initialization chunk within the same
atomic handler step that forwards it; an empty chunk is cached as
`some []`, distinct from the empty slot `none`; once the slot holds a chunk
it is never overwritten by later submissions — only re-registering or
destroying the session resets it — and destroying the session (explicit stop
or producer disconnect) clears the slot. -/
theorem c5_header_written_once (r : Sid) :
    (∀ st p ch rm, alookup r st.rooms = some rm →
      alookup r st.audioHeaders = none →
      alookup r (mstep st (.audioStream p r ch)).audioHeaders = some ch
      ∧ some ch ≠ (none : Option Chunk))
    ∧ (∀ pre post h, alookup r (runM pre).audioHeaders = some h →
        (∀ e ∈ post, resetsRoom r e = false) →
        alookup r (runM (pre ++ post)).audioHeaders = some h)
    ∧ (∀ st rm, alookup r st.rooms = some rm →
        alookup r (mstep st (.stopBroadcast r)).audioHeaders = none
        ∧ alookup r (mstep st (.disconnect r)).audioHeaders = none) := by
  refine ⟨?_, ?_, ?_⟩
  · intro st p ch rm hroom hnone
    refine ⟨?_, by simp⟩
    simp [mstep, hroom, hnone, alookup_aset_self]
  · intro pre post h hh hkeep
    rw [runM, List.foldl_append]
    exact foldl_header_preserved post (runM pre) r h hkeep hh
  · intro st rm hroom
    constructor
    · simp [mstep, closeRoom, hroom, alookup_adel_self]
    · simp [mstep, closeRoom, hroom, alookup_adel_self]

/-- C5 witness: after `p` goes live, submitting the empty chunk caches
`some []`; after `p`'s first chunk `[1]` is cached, a later submission
`[2]` leaves the cache at `[1]`, and stopping the broadcast clears it. -/
theorem c5_header_written_once_witness :
    (alookup "p" (mstep (runM [.broadcaster "p" "Host" "Show" "audio/webm" 0])
        (.audioStream "p" "p" [])).audioHeaders = some []
      ∧ some ([] : Chunk) ≠ (none : Option Chunk))
    ∧ alookup "p" (runM ([.broadcaster "p" "Host" "Show" "audio/webm" 0,
        .audioStream "p" "p" [1]]
          ++ [.joinEvent "c" "p", .audioStream "p" "p" [2]])).audioHeaders = some [1]
    ∧ (alookup "p" (mstep (runM [.broadcaster "p" "Host" "Show" "audio/webm" 0,
          .audioStream "p" "p" [1]]) (.stopBroadcast "p")).audioHeaders = none
      ∧ alookup "p" (mstep (runM [.broadcaster "p" "Host" "Show" "audio/webm" 0,
          .audioStream "p" "p" [1]]) (.disconnect "p")).audioHeaders = none) :=
  ⟨(c5_header_written_once "p").1
      (runM [.broadcaster "p" "Host" "Show" "audio/webm" 0]) "p" []
      ⟨"p", "Host", "Show", "audio/webm", 0, 0⟩ (by decide) (by decide),
   (c5_header_written_once "p").2.1
      [.broadcaster "p" "Host" "Show" "audio/webm" 0, .audioStream "p" "p" [1]]
      [.joinEvent "c" "p", .audioStream "p" "p" [2]] [1] (by decide) (by decide),
   (c5_header_written_once "p").2.2
      (runM [.broadcaster "p" "Host" "Show" "audio/webm" 0, .audioStream "p" "p" [1]])
      ⟨"p", "Host", "Show", "audio/webm", 0, 0⟩ (by decide)⟩

/- ====================================================================
   C3 amended: the listener count never goes negative.
   ==================================================================== -/

theorem countsNonneg_aset (m : List (String × Stream)) (k : String) (v : Stream)
    (hm : countsNonneg m) (hv : 0 ≤ v.listeners) : countsNonneg (aset k v m) := by
  intro p hp
  rcases mem_aset p k v m hp with h | h
  · rw [h]
    exact hv
  · exact hm p h

theorem countsNonneg_adel (m : List (String × Stream)) (k : String)
    (hm : countsNonneg m) : countsNonneg (adel k m) :=
  fun p hp => hm p (mem_adel p k m hp)

theorem countsNonneg_alookup (m : List (String × Stream)) (k : String) (v : Stream)
    (hm : countsNonneg m) (h : alookup k m = some v) : 0 ≤ v.listeners :=
  hm (k, v) (alookup_mem k v m h)

theorem sstep_countsNonneg (s : SState) (e : SEvent)
    (hm : countsNonneg s.streams) : countsNonneg (sstep s e).streams := by
  cases e with
  | connect sid name now => exact hm
  | createStream sid d newId now =>
      simp only [sstep, onCreateStream]
      cases hu : alookup sid s.users with
      | none => exact hm
      | some u => exact countsNonneg_aset _ _ _ hm (le_refl 0)
  | joinStream sid streamId peerId uname now =>
      simp only [sstep, onJoinStream]
      cases hu : alookup sid s.users with
      | none => exact hm
      | some u =>
          cases hs : alookup streamId s.streams with
          | none => exact hm
          | some stream =>
              refine countsNonneg_aset _ _ _ hm ?_
              have h0 := countsNonneg_alookup _ _ _ hm hs
              show 0 ≤ stream.listeners + 1
              omega
  | leaveStream sid streamId now =>
      simp only [sstep, onLeaveStream]
      cases hu : alookup sid s.users with
      | none => exact hm
      | some u =>
          cases hs : alookup streamId s.streams with
          | none => exact hm
          | some stream => exact countsNonneg_aset _ _ _ hm (le_max_left 0 _)
  | endStream sid streamId reason now =>
      simp only [sstep, onEndStream]
      cases hu : alookup sid s.users with
      | none => exact hm
      | some u =>
          cases hs : alookup streamId s.streams with
          | none => exact hm
          | some stream => exact countsNonneg_adel _ _ hm
  | disconnect sid now =>
      simp only [sstep, onDisconnect]
      cases hu : alookup sid s.users with
      | none => exact hm
      | some u =>
          have hhost : ∀ s0 : SState, countsNonneg s0.streams →
              countsNonneg (onDisconnectHost u now s0).streams := by
            intro s0 hm0
            simp only [onDisconnectHost]
            split
            · split
              · exact hm0
              · exact countsNonneg_adel _ _ hm0
            · exact hm0
          have hroom : ∀ s1 : SState, countsNonneg s1.streams →
              countsNonneg (onDisconnectRoom sid u now s1).streams := by
            intro s1 hm1
            simp only [onDisconnectRoom]
            split
            · exact hm1
            · split
              · exact hm1
              · refine countsNonneg_aset _ _ _ hm1 ?_
                exact le_max_left 0 _
          exact hroom _ (hhost _ hm)

theorem foldl_countsNonneg (evs : List SEvent) (s : SState)
    (hm : countsNonneg s.streams) : countsNonneg (evs.foldl sstep s).streams := by
  induction evs generalizing s with
  | nil => exact hm
  | cons e rest ih =>
      simp only [List.foldl_cons]
      exact ih (sstep s e) (sstep_countsNonneg s e hm)

theorem alookup_none_forall (k : String) (m : List (String × α))
    (h : alookup k m = none) : ∀ p ∈ m, p.1 ≠ k := by
  induction m with
  | nil => intro p hp; cases hp
  | cons q rest ih =>
      obtain ⟨a, b⟩ := q
      by_cases ha : a = k
      · rw [alookup, if_pos ha] at h
        cases h
      · rw [alookup, if_neg ha] at h
        intro p hp
        rcases List.mem_cons.mp hp with h1 | h1
        · rw [h1]
          exact ha
        · exact ih h p h1

theorem listLive_not_id (now' : Nat) (s' : SState) (t : String)
    (hnone : alookup t s'.streams = none)
    (hco : ∀ p ∈ s'.streams, p.2.id = p.1) :
    ∀ x ∈ listLiveSessions now' s', x.id ≠ t := by
  intro x hx
  simp only [listLiveSessions, activeStreamSummaries, List.mem_map, List.mem_filter] at hx
  obtain ⟨st', ⟨⟨p, hp, hpe⟩, hlive⟩, rfl⟩ := hx
  subst hpe
  have hid := hco p hp
  have hne := alookup_none_forall t s'.streams hnone p hp
  simpa [summarize, hid] using hne

theorem onDisconnectRoom_emitted_mono (sid : String) (u : User) (now : Nat)
    (s1 : SState) : ∀ e ∈ s1.emitted, e ∈ (onDisconnectRoom sid u now s1).emitted := by
  intro e he
  simp only [onDisconnectRoom]
  split
  · exact he
  · split
    · exact he
    · simp only [broadcastStreamList, emit1]
      exact List.mem_append_left _ (List.mem_append_left _ he)

theorem onDisconnectRoom_lookup_none (sid : String) (u : User) (now : Nat)
    (s1 : SState) (t : String) (hnone : alookup t s1.streams = none)
    (hco : ∀ p ∈ s1.streams, p.2.id = p.1) :
    alookup t (onDisconnectRoom sid u now s1).streams = none
    ∧ ∀ p ∈ (onDisconnectRoom sid u now s1).streams, p.2.id = p.1 := by
  simp only [onDisconnectRoom]
  split
  · exact ⟨hnone, hco⟩
  · next r heqr =>
      split
      · exact ⟨hnone, hco⟩
      · next stream heq =>
          have hid : stream.id = r := hco (r, stream) (alookup_mem r stream s1.streams heq)
          have hrt : t ≠ r := by
            intro hteq
            rw [hteq, heq] at hnone
            cases hnone
          constructor
          · show alookup t (aset r _ s1.streams) = none
            rw [alookup_aset_ne t r _ _ hrt]
            exact hnone
          · intro p hp
            rcases mem_aset p r _ s1.streams hp with h | h
            · rw [h]
              simpa using hid
            · exact hco p h

/-- C3 amended: after any finite sequence of events (joins, leaves,
disconnects — including leaves or disconnects by connections that never
joined), every session's listener count is non-negative: every decrement is
clamped by `Math.max(0, listeners - 1)`.  The original equality with the
number of bound consumers fails (see the counterexample): the preloaded mock
sessions start with nonzero counts and empty listener lists, and a leave by
a non-joined connection decrements the count without removing anything from
the listener list. -/
theorem c3_amended_counts_never_negative (now0 : Nat) (evs : List SEvent) :
    countsNonneg (runS now0 evs).streams := by
  have hinit : countsNonneg (initS now0).streams := by
    intro p hp
    simp only [initS, List.mem_cons, List.mem_singleton] at hp
    rcases hp with h | h | h | h
    · rw [h]; norm_num [mock1]
    · rw [h]; norm_num [mock2]
    · rw [h]; norm_num [mock3]
    · cases h
  exact foldl_countsNonneg evs (initS now0) hinit

/-- C4 amended: when a connection that is registered as the host of an
existing stream disconnects (or explicitly ends the stream), the stream is
deleted — it is absent from the table and from `listLiveSessions()` — and a
`stream-ended` notification is emitted whose recipients include every socket
still in the stream's room (on disconnect, every such socket other than the
disconnecting host itself).  The original claim's final clause — that no
session ever exists whose producer connection is dead — is false from
startup because of the preloaded mock sessions (see the counterexample). -/
theorem c4_amended_producer_disconnect_destroys (s : SState)
    (sid t reason : String) (now now' : Nat) (u : User) (st : Stream)
    (hu : alookup sid s.users = some u)
    (hty : u.type = .host)
    (hsi : u.streamId = some t)
    (hst : alookup t s.streams = some st)
    (hkeys : ∀ p ∈ s.streams, p.2.id = p.1) :
    alookup t (sstep s (.disconnect sid now)).streams = none
    ∧ (∀ x ∈ listLiveSessions now' (sstep s (.disconnect sid now)), x.id ≠ t)
    ∧ (∃ e ∈ (sstep s (.disconnect sid now)).emitted,
        e.ev = .streamEnded t "Host disconnected"
        ∧ ∀ c, (c, t) ∈ s.membership → c ≠ sid → c ∈ e.recipients)
    ∧ alookup t (sstep s (.endStream sid t reason now)).streams = none
    ∧ (∃ e ∈ (sstep s (.endStream sid t reason now)).emitted,
        e.ev = .streamEnded t reason
        ∧ ∀ c, (c, t) ∈ s.membership → c ∈ e.recipients) := by
  have hAs : (onDisconnectHost u now
      { s with membership := s.membership.filter (fun p => p.1 ≠ sid) }).streams
      = adel t s.streams := by
    simp [onDisconnectHost, hty, hsi, hst, emit1, broadcastStreamList]
  have hAe : (⟨roomMembers { s with membership := s.membership.filter (fun p => p.1 ≠ sid) } t,
      .streamEnded t "Host disconnected"⟩ : Emit)
      ∈ (onDisconnectHost u now
        { s with membership := s.membership.filter (fun p => p.1 ≠ sid) }).emitted := by
    simp only [onDisconnectHost, hty, hsi, hst, emit1, broadcastStreamList]
    exact List.mem_append_left _ (List.mem_append_right _ (List.mem_singleton_self _))
  have hRoom := onDisconnectRoom_lookup_none sid u now
    (onDisconnectHost u now { s with membership := s.membership.filter (fun p => p.1 ≠ sid) }) t
    (by rw [hAs]; exact alookup_adel_self t s.streams)
    (by rw [hAs]; exact fun p hp => hkeys p (mem_adel p t s.streams hp))
  have h1 : alookup t (sstep s (.disconnect sid now)).streams = none := by
    simp only [sstep, onDisconnect, hu]
    exact hRoom.1
  have h1co : ∀ p ∈ (sstep s (.disconnect sid now)).streams, p.2.id = p.1 := by
    simp only [sstep, onDisconnect, hu]
    exact hRoom.2
  refine ⟨h1, listLive_not_id now' _ t h1 h1co, ?_, ?_, ?_⟩
  · refine ⟨⟨roomMembers { s with membership := s.membership.filter (fun p => p.1 ≠ sid) } t,
      .streamEnded t "Host disconnected"⟩, ?_, rfl, ?_⟩
    · simp only [sstep, onDisconnect, hu]
      exact onDisconnectRoom_emitted_mono sid u now _ _ hAe
    · intro c hc hcne
      rw [mem_roomMembers]
      simp only [List.mem_filter]
      exact ⟨hc, by simp [hcne]⟩
  · simp only [sstep, onEndStream, hu, hst, emit1, broadcastStreamList]
    exact alookup_adel_self t _
  · refine ⟨⟨roomMembers s t, .streamEnded t reason⟩, ?_, rfl, ?_⟩
    · simp only [sstep, onEndStream, hu, hst, emit1, broadcastStreamList]
      exact List.mem_append_left _ (List.mem_append_right _ (List.mem_singleton_self _))
    · intro c hc
      exact (mem_roomMembers s t c).mpr hc

theorem filter_idem (p : α → Bool) (l : List α) : (l.filter p).filter p = l.filter p := by
  induction l with
  | nil => rfl
  | cons a rest ih =>
      by_cases h : p a = true
      · simp [List.filter_cons, h, ih]
      · simp [List.filter_cons, h, ih]

theorem onLeaveStream_effect (s : SState) (sid streamId : String) (now : Nat)
    (u : User) (stream : Stream)
    (hu : alookup sid s.users = some u)
    (hstream : alookup streamId s.streams = some stream) :
    (onLeaveStream sid streamId now s).streams
        = aset streamId
            { stream with
              listeners := max 0 (stream.listeners - 1),
              listenersList := stream.listenersList.filter (fun l => l.id ≠ sid) }
            s.streams
    ∧ (onLeaveStream sid streamId now s).users
        = aset sid { u with currentRoom := none } s.users
    ∧ (onLeaveStream sid streamId now s).membership
        = s.membership.filter (fun p => ¬(p.1 = sid ∧ p.2 = streamId)) := by
  simp [onLeaveStream, hu, hstream, emit1, broadcastStreamList]

/-- C6 amended: a leave naming a nonexistent session is a no-op (the state
is returned unchanged).  For an existing session, leave is idempotent only
with respect to the listeners list and the room membership: repeating it
yields the same `listenersList` and the same membership as a single leave.
The listener count, however, is decremented (clamped at zero) by every call
that names an existing session — a second leave by the same connection, or a
leave by a connection that never joined, decrements the count again. -/
theorem c6_amended_leave_idempotent_only_on_list (s : SState)
    (sid streamId : String) (now now2 : Nat) (u : User)
    (hu : alookup sid s.users = some u) :
    (alookup streamId s.streams = none → sstep s (.leaveStream sid streamId now) = s)
    ∧ ∀ stream, alookup streamId s.streams = some stream →
        (alookup streamId (sstep (sstep s (.leaveStream sid streamId now))
            (.leaveStream sid streamId now2)).streams).map Stream.listenersList
          = (alookup streamId
              (sstep s (.leaveStream sid streamId now)).streams).map Stream.listenersList
        ∧ (sstep (sstep s (.leaveStream sid streamId now))
            (.leaveStream sid streamId now2)).membership
          = (sstep s (.leaveStream sid streamId now)).membership
        ∧ (alookup streamId (sstep s (.leaveStream sid streamId now)).streams).map
            Stream.listeners = some (max 0 (stream.listeners - 1))
        ∧ (alookup streamId (sstep (sstep s (.leaveStream sid streamId now))
            (.leaveStream sid streamId now2)).streams).map Stream.listeners
          = some (max 0 (max 0 (stream.listeners - 1) - 1)) := by
  constructor
  · intro hnone
    simp only [sstep, onLeaveStream, hu, hnone]
  · intro stream hstream
    obtain ⟨e1s, e1u, e1m⟩ := onLeaveStream_effect s sid streamId now u stream hu hstream
    have hu1 : alookup sid (sstep s (.leaveStream sid streamId now)).users
        = some { u with currentRoom := none } := by
      show alookup sid (onLeaveStream sid streamId now s).users = _
      rw [e1u]
      exact alookup_aset_self sid _ s.users
    have hs1 : alookup streamId (sstep s (.leaveStream sid streamId now)).streams
        = some { stream with
            listeners := max 0 (stream.listeners - 1),
            listenersList := stream.listenersList.filter (fun l => l.id ≠ sid) } := by
      show alookup streamId (onLeaveStream sid streamId now s).streams = _
      rw [e1s]
      exact alookup_aset_self streamId _ s.streams
    obtain ⟨e2s, e2u, e2m⟩ := onLeaveStream_effect
      (sstep s (.leaveStream sid streamId now)) sid streamId now2 _ _ hu1 hs1
    have e1m' : (sstep s (SEvent.leaveStream sid streamId now)).membership
        = s.membership.filter (fun p => ¬(p.1 = sid ∧ p.2 = streamId)) := e1m
    refine ⟨?_, ?_, ?_, ?_⟩
    · show (alookup streamId (onLeaveStream sid streamId now2 _).streams).map _ = _
      rw [e2s, alookup_aset_self, hs1]
      simp [filter_idem]
    · show (onLeaveStream sid streamId now2 _).membership = _
      rw [e2m, e1m', filter_idem]
    · rw [hs1]
      rfl
    · show (alookup streamId (onLeaveStream sid streamId now2 _).streams).map _ = _
      rw [e2s, alookup_aset_self]
      rfl

theorem aset_length_new (k : String) (v : α) (m : List (String × α))
    (h : alookup k m = none) : (aset k v m).length = m.length + 1 := by
  induction m with
  | nil => rfl
  | cons q rest ih =>
      obtain ⟨a, b⟩ := q
      by_cases ha : a = k
      · rw [alookup, if_pos ha] at h
        cases h
      · rw [alookup, if_neg ha] at h
        simp only [aset, if_neg ha, List.length_cons, ih h]

/-- C7 amended: a `create-stream` request from a connection that is already
bound as a producer does not fail — there is no `AlreadyProducing` check.
With the freshly generated id `newId`, the call registers an additional
session (the table grows by one, every other key is untouched, so in
particular the caller's previous session stays live), rebinds the caller as
host of the new session, and reports no error of any kind. -/
theorem c7_amended_second_create_succeeds (s : SState) (sid newId : String)
    (d : CreateData) (now : Nat) (u : User)
    (hu : alookup sid s.users = some u)
    (hfresh : alookup newId s.streams = none) :
    (alookup newId (sstep s (.createStream sid d newId now)).streams).isSome = true
    ∧ (sstep s (.createStream sid d newId now)).streams.length = s.streams.length + 1
    ∧ (∀ k, k ≠ newId →
        alookup k (sstep s (.createStream sid d newId now)).streams = alookup k s.streams)
    ∧ (alookup sid (sstep s (.createStream sid d newId now)).users).map User.streamId
        = some (some newId)
    ∧ (alookup sid (sstep s (.createStream sid d newId now)).users).map User.type
        = some Role.host
    ∧ errorsOf (sstep s (.createStream sid d newId now)).emitted = errorsOf s.emitted := by
  simp only [sstep, onCreateStream, hu, emit1, broadcastStreamList]
  refine ⟨?_, ?_, ?_, ?_, ?_, ?_⟩
  · rw [alookup_aset_self]
    rfl
  · exact aset_length_new newId _ s.streams hfresh
  · intro k hk
    exact alookup_aset_ne k newId _ _ hk
  · rw [alookup_aset_self]
    rfl
  · rw [alookup_aset_self]
    rfl
  · simp [errorsOf, List.filter_append]

/-- C7 amended witness: connection `p`, already hosting session `A`, creates
session `B`: both sessions are present afterwards, `p` is rebound to `B`,
and no error was ever emitted. -/
theorem c7_amended_witness :
    (alookup "B" (sstep (runS 0
      [.connect "p" "P" 0,
       .createStream "p" ⟨none, none, none, none, none, none, none⟩ "A" 1])
      (.createStream "p" ⟨none, none, none, none, none, none, none⟩ "B" 2)).streams).isSome
        = true
    ∧ (sstep (runS 0
        [.connect "p" "P" 0,
         .createStream "p" ⟨none, none, none, none, none, none, none⟩ "A" 1])
        (.createStream "p" ⟨none, none, none, none, none, none, none⟩ "B" 2)).streams.length
      = (runS 0
        [.connect "p" "P" 0,
         .createStream "p" ⟨none, none, none, none, none, none, none⟩ "A" 1]).streams.length
        + 1
    ∧ alookup "A" (sstep (runS 0
        [.connect "p" "P" 0,
         .createStream "p" ⟨none, none, none, none, none, none, none⟩ "A" 1])
        (.createStream "p" ⟨none, none, none, none, none, none, none⟩ "B" 2)).streams
      = alookup "A" (runS 0
        [.connect "p" "P" 0,
         .createStream "p" ⟨none, none, none, none, none, none, none⟩ "A" 1]).streams
    ∧ errorsOf (sstep (runS 0
        [.connect "p" "P" 0,
         .createStream "p" ⟨none, none, none, none, none, none, none⟩ "A" 1])
        (.createStream "p" ⟨none, none, none, none, none, none, none⟩ "B" 2)).emitted
      = errorsOf (runS 0
        [.connect "p" "P" 0,
         .createStream "p" ⟨none, none, none, none, none, none, none⟩ "A" 1]).emitted := by
  have h := c7_amended_second_create_succeeds (runS 0
      [.connect "p" "P" 0,
       .createStream "p" ⟨none, none, none, none, none, none, none⟩ "A" 1])
    "p" "B" ⟨none, none, none, none, none, none, none⟩ 2
    ⟨"p", "P", .host, 0, some "A", none, some "A"⟩ (by decide) (by decide)
  exact ⟨h.1, h.2.1, h.2.2.1 "A" (by decide), h.2.2.2.2.2⟩

/-- C8: a join naming an unknown session id is answered with the
`"Stream not found"` error to the requesting socket and nothing else — the
resulting state is exactly the old state plus that one error emission (no
room membership, no count change) — in both the `src/server.js` handler and
the capacity-checking variant; and in the capacity-checking variant a join
to an existing non-private session whose listener count has reached
`maxListeners` is answered with `"Stream is full"` the same way, without
incrementing the count. -/
theorem c8_join_not_found_and_full (s : SState) (sid streamId : String)
    (peerId uname pwd : Option String) (now : Nat) (u : User)
    (hu : alookup sid s.users = some u) :
    (alookup streamId s.streams = none →
      onJoinStream sid streamId peerId uname now s
          = emit1 [sid] (.streamError "Stream not found") s
      ∧ onJoinStreamV2 sid streamId peerId uname pwd now s
          = emit1 [sid] (.streamError "Stream not found") s)
    ∧ (∀ stream, alookup streamId s.streams = some stream →
        stream.isPrivate = false →
        stream.maxListeners ≤ stream.listeners →
        onJoinStreamV2 sid streamId peerId uname pwd now s
          = emit1 [sid] (.streamError "Stream is full") s) := by
  constructor
  · intro hnone
    constructor
    · simp only [onJoinStream, hu, hnone]
    · simp only [onJoinStreamV2, hu, hnone]
  · intro stream hst hpriv hfull
    simp only [onJoinStreamV2, hu, hst, hpriv]
    rw [if_neg (by simp), if_pos hfull]

/-- C8 witness: with stream `S` created at capacity cap 1 and consumer `c1`
joined (count 1 = cap), a join by `c2` naming the unknown id `nope` yields
only the `"Stream not found"` error, and a capacity-checked join by `c2`
naming `S` yields only the `"Stream is full"` error. -/
theorem c8_join_not_found_and_full_witness :
    (onJoinStream "c2" "nope" none none 0 (runS 0
        [.connect "h" "H" 0,
         .createStream "h" ⟨none, none, none, none, none, none, some 1⟩ "S" 0,
         .connect "c1" "C1" 0, .connect "c2" "C2" 0,
         .joinStream "c1" "S" none none 0])
      = emit1 ["c2"] (.streamError "Stream not found") (runS 0
        [.connect "h" "H" 0,
         .createStream "h" ⟨none, none, none, none, none, none, some 1⟩ "S" 0,
         .connect "c1" "C1" 0, .connect "c2" "C2" 0,
         .joinStream "c1" "S" none none 0]))
    ∧ (onJoinStreamV2 "c2" "S" none none none 0 (runS 0
        [.connect "h" "H" 0,
         .createStream "h" ⟨none, none, none, none, none, none, some 1⟩ "S" 0,
         .connect "c1" "C1" 0, .connect "c2" "C2" 0,
         .joinStream "c1" "S" none none 0])
      = emit1 ["c2"] (.streamError "Stream is full") (runS 0
        [.connect "h" "H" 0,
         .createStream "h" ⟨none, none, none, none, none, none, some 1⟩ "S" 0,
         .connect "c1" "C1" 0, .connect "c2" "C2" 0,
         .joinStream "c1" "S" none none 0])) :=
  ⟨((c8_join_not_found_and_full (runS 0
      [.connect "h" "H" 0,
       .createStream "h" ⟨none, none, none, none, none, none, some 1⟩ "S" 0,
       .connect "c1" "C1" 0, .connect "c2" "C2" 0,
       .joinStream "c1" "S" none none 0])
      "c2" "nope" none none none 0
      ⟨"c2", "C2", .listener, 0, none, none, none⟩ (by decide)).1 (by decide)).1,
   (c8_join_not_found_and_full (runS 0
      [.connect "h" "H" 0,
       .createStream "h" ⟨none, none, none, none, none, none, some 1⟩ "S" 0,
       .connect "c1" "C1" 0, .connect "c2" "C2" 0,
       .joinStream "c1" "S" none none 0])
      "c2" "S" none none none 0
      ⟨"c2", "C2", .listener, 0, none, none, none⟩ (by decide)).2
    ⟨"S", "Untitled Stream", "Join my live broadcast!", ⟨"h", "H", none⟩,
      "general", "https://api.dicebear.com/7.x/shapes/svg?seed=S", 1, 1,
      true, false, none, ["general"], 0, 0, [⟨"c1", "C1", none, 0⟩]⟩
    (by decide) (by decide) (by decide)⟩

set_option maxRecDepth 8000 in
/-- C9 counterexample: after 100 chat messages the history holds exactly 100
entries; the host-going-live event then appends its system notice with a bare
`push` — no bound check — leaving 101 entries in the buffer, so the 100-entry
bound does not hold after every appending event. -/
theorem c9_counterexample :
    (runC (List.replicate 100 (CEvent.chatMessage "u" none (some "hi") none 0)
      ++ [CEvent.hostReady "h" "pid" 0])).chatHistory.length = 101
    ∧ ¬(101 ≤ 100) := by decide

theorem pushTrim_length_le (hist : List Msg) (m : Msg) (h : hist.length ≤ 100) :
    (pushTrim hist m).length ≤ 100 := by
  simp only [pushTrim]
  split
  · next hgt =>
      rw [List.length_tail]
      simp only [List.length_append, List.length_singleton]
      omega
  · next hle =>
      simp only [not_lt] at hle
      exact hle

theorem pushTrim_at_bound (hist : List Msg) (m : Msg) (h : hist.length = 100) :
    pushTrim hist m = hist.tail ++ [m] := by
  cases hist with
  | nil => simp at h
  | cons a rest =>
      simp only [pushTrim, List.cons_append]
      rw [if_pos]
      · rfl
      · simp only [List.length_cons, List.length_append, List.length_singleton]
        simp only [List.length_cons] at h
        omega

/-- C9 amended: the bounded append `pushTrim` keeps the history at no more
than 100 entries and, once the bound is reached, evicts the oldest entry
(FIFO, `shift()`); the user-join, chat-message (when the trimmed text is
nonempty) and gift-announcement handlers all append through `pushTrim`.  But
the host-going-live notice, and the user-left / host-offline notices pushed
by the disconnect handler, are appended with a bare `push` without the bound
check, so those events can grow the buffer past 100 (see the
counterexample). -/
theorem c9_amended_ring_buffer :
    (∀ hist m, hist.length ≤ 100 → (pushTrim hist m).length ≤ 100)
    ∧ (∀ hist m, hist.length = 100 → pushTrim hist m = hist.tail ++ [m])
    ∧ (∀ st sid name isHost role ts,
        (cstep st (.userJoin sid name isHost role ts)).chatHistory
          = pushTrim st.chatHistory (joinMsgOf (jsOrStr name "Anonymous") ts))
    ∧ (∀ st sid duser dmsg dcolor ts, jsTrim (jsOrStr dmsg "") ≠ "" →
        ∃ m, (cstep st (.chatMessage sid duser dmsg dcolor ts)).chatHistory
          = pushTrim st.chatHistory m)
    ∧ (∀ st sid duser gift ts,
        ∃ m, (cstep st (.sendGift sid duser gift ts)).chatHistory
          = pushTrim st.chatHistory m)
    ∧ (∀ st sid pid ts,
        (cstep st (.hostReady sid pid ts)).chatHistory = st.chatHistory ++ [liveMsgOf ts])
    ∧ (∀ st sid ts cu, alookup sid st.onlineUsers = some cu →
        ∃ ms, ms ≠ [] ∧ (cstep st (.disconnect sid ts)).chatHistory
          = st.chatHistory ++ ms) := by
  refine ⟨pushTrim_length_le, pushTrim_at_bound, ?_, ?_, ?_, ?_, ?_⟩
  · intro st sid name isHost role ts
    rfl
  · intro st sid duser dmsg dcolor ts h
    simp only [cstep]
    rw [if_neg h]
    exact ⟨_, rfl⟩
  · intro st sid duser gift ts
    exact ⟨_, rfl⟩
  · intro st sid pid ts
    rfl
  · intro st sid ts cu hcu
    by_cases hh : st.hostSocketId = some sid
    · refine ⟨[leaveMsgOf cu.name ts, offlineMsgOf ts], by simp, ?_⟩
      simp only [cstep, hcu, if_pos hh]
      simp [List.append_assoc]
    · refine ⟨[leaveMsgOf cu.name ts], by simp, ?_⟩
      simp only [cstep, hcu, if_neg hh]

/-- C9 amended witness: at a history of exactly 100 entries, the bounded
append stays at 100 and drops the oldest entry, while the host-going-live
handler pushes past the bound to 101. -/
theorem c9_amended_ring_buffer_witness :
    (List.replicate 100 (⟨"u", "hi", "user", false, "#3b82f6", 0⟩ : Msg)).length ≤ 100
    ∧ (pushTrim (List.replicate 100 (⟨"u", "hi", "user", false, "#3b82f6", 0⟩ : Msg))
        (joinMsgOf "w" 1)).length ≤ 100
    ∧ pushTrim (List.replicate 100 (⟨"u", "hi", "user", false, "#3b82f6", 0⟩ : Msg))
        (joinMsgOf "w" 1)
      = (List.replicate 100 (⟨"u", "hi", "user", false, "#3b82f6", 0⟩ : Msg)).tail
          ++ [joinMsgOf "w" 1]
    ∧ (cstep ⟨List.replicate 100 (⟨"u", "hi", "user", false, "#3b82f6", 0⟩ : Msg), [], none⟩
        (.hostReady "h" "p" 5)).chatHistory
      = List.replicate 100 (⟨"u", "hi", "user", false, "#3b82f6", 0⟩ : Msg)
          ++ [liveMsgOf 5] :=
  ⟨by decide,
   c9_amended_ring_buffer.1 _ _ (by decide),
   c9_amended_ring_buffer.2.1 _ _ (by decide),
   c9_amended_ring_buffer.2.2.2.2.2.1
     ⟨List.replicate 100 (⟨"u", "hi", "user", false, "#3b82f6", 0⟩ : Msg), [], none⟩
     "h" "p" 5⟩

/-- C6 amended witness: with host `h` and consumers `c1`, `c2` joined to
stream `S`, a leave naming the nonexistent stream `nope` is a no-op, and for
`S` the double leave of `c1` keeps the listeners list of a single leave while
decrementing its count 2 → 1 → 0. -/
theorem c6_amended_witness :
    (sstep (runS 0
      [.connect "h" "H" 0,
       .createStream "h" ⟨none, none, none, none, none, none, none⟩ "S" 0,
       .connect "c1" "C1" 0, .connect "c2" "C2" 0,
       .joinStream "c1" "S" none none 0, .joinStream "c2" "S" none none 0])
      (.leaveStream "c1" "nope" 0)
      = runS 0
      [.connect "h" "H" 0,
       .createStream "h" ⟨none, none, none, none, none, none, none⟩ "S" 0,
       .connect "c1" "C1" 0, .connect "c2" "C2" 0,
       .joinStream "c1" "S" none none 0, .joinStream "c2" "S" none none 0])
    ∧ ((alookup "S" (sstep (sstep (runS 0
        [.connect "h" "H" 0,
         .createStream "h" ⟨none, none, none, none, none, none, none⟩ "S" 0,
         .connect "c1" "C1" 0, .connect "c2" "C2" 0,
         .joinStream "c1" "S" none none 0, .joinStream "c2" "S" none none 0])
        (.leaveStream "c1" "S" 0)) (.leaveStream "c1" "S" 0)).streams).map
          Stream.listenersList
        = (alookup "S" ((sstep (runS 0
          [.connect "h" "H" 0,
           .createStream "h" ⟨none, none, none, none, none, none, none⟩ "S" 0,
           .connect "c1" "C1" 0, .connect "c2" "C2" 0,
           .joinStream "c1" "S" none none 0, .joinStream "c2" "S" none none 0])
          (.leaveStream "c1" "S" 0))).streams).map Stream.listenersList
      ∧ (alookup "S" (sstep (runS 0
          [.connect "h" "H" 0,
           .createStream "h" ⟨none, none, none, none, none, none, none⟩ "S" 0,
           .connect "c1" "C1" 0, .connect "c2" "C2" 0,
           .joinStream "c1" "S" none none 0, .joinStream "c2" "S" none none 0])
          (.leaveStream "c1" "S" 0)).streams).map Stream.listeners
        = some (max 0 ((2 : Int) - 1))
      ∧ (alookup "S" (sstep (sstep (runS 0
          [.connect "h" "H" 0,
           .createStream "h" ⟨none, none, none, none, none, none, none⟩ "S" 0,
           .connect "c1" "C1" 0, .connect "c2" "C2" 0,
           .joinStream "c1" "S" none none 0, .joinStream "c2" "S" none none 0])
          (.leaveStream "c1" "S" 0)) (.leaveStream "c1" "S" 0)).streams).map
            Stream.listeners
        = some (max 0 (max 0 ((2 : Int) - 1) - 1))) :=
  ⟨(c6_amended_leave_idempotent_only_on_list (runS 0
      [.connect "h" "H" 0,
       .createStream "h" ⟨none, none, none, none, none, none, none⟩ "S" 0,
       .connect "c1" "C1" 0, .connect "c2" "C2" 0,
       .joinStream "c1" "S" none none 0, .joinStream "c2" "S" none none 0])
      "c1" "nope" 0 0 ⟨"c1", "C1", .listener, 0, some "S", none, none⟩
      (by decide)).1 (by decide),
   by
    have h := (c6_amended_leave_idempotent_only_on_list (runS 0
      [.connect "h" "H" 0,
       .createStream "h" ⟨none, none, none, none, none, none, none⟩ "S" 0,
       .connect "c1" "C1" 0, .connect "c2" "C2" 0,
       .joinStream "c1" "S" none none 0, .joinStream "c2" "S" none none 0])
      "c1" "S" 0 0 ⟨"c1", "C1", .listener, 0, some "S", none, none⟩
      (by decide)).2
      ⟨"S", "Untitled Stream", "Join my live broadcast!", ⟨"h", "H", none⟩,
        "general", "https://api.dicebear.com/7.x/shapes/svg?seed=S", 2, 1000,
        true, false, none, ["general"], 0, 0,
        [⟨"c1", "C1", none, 0⟩, ⟨"c2", "C2", none, 0⟩]⟩
      (by decide)
    exact ⟨h.1, h.2.2.1, h.2.2.2⟩⟩

/-- C4 amended witness: in the concrete state where host `h` has created
stream `S` and consumer `c` has joined it, the host's disconnect (and,
alternatively, an explicit end-stream) removes `S` from the table and the
live list and emits `stream-ended` reaching `c`. -/
theorem c4_amended_witness :
    alookup "S" (sstep (runS 0
      [.connect "h" "H" 0,
       .createStream "h" ⟨none, none, none, none, none, none, none⟩ "S" 0,
       .connect "c" "C" 0, .joinStream "c" "S" none none 0])
      (.disconnect "h" 0)).streams = none
    ∧ (∃ e ∈ (sstep (runS 0
        [.connect "h" "H" 0,
         .createStream "h" ⟨none, none, none, none, none, none, none⟩ "S" 0,
         .connect "c" "C" 0, .joinStream "c" "S" none none 0])
        (.disconnect "h" 0)).emitted,
        e.ev = .streamEnded "S" "Host disconnected"
        ∧ ∀ c, (c, "S") ∈ (runS 0
            [.connect "h" "H" 0,
             .createStream "h" ⟨none, none, none, none, none, none, none⟩ "S" 0,
             .connect "c" "C" 0, .joinStream "c" "S" none none 0]).membership →
          c ≠ "h" → c ∈ e.recipients) :=
  ⟨(c4_amended_producer_disconnect_destroys (runS 0
      [.connect "h" "H" 0,
       .createStream "h" ⟨none, none, none, none, none, none, none⟩ "S" 0,
       .connect "c" "C" 0, .joinStream "c" "S" none none 0])
      "h" "S" "r" 0 0
      ⟨"h", "H", .host, 0, some "S", none, some "S"⟩
      ⟨"S", "Untitled Stream", "Join my live broadcast!", ⟨"h", "H", none⟩,
        "general", "https://api.dicebear.com/7.x/shapes/svg?seed=S", 1, 1000,
        true, false, none, ["general"], 0, 0, [⟨"c", "C", none, 0⟩]⟩
      (by decide) rfl rfl (by decide) (by decide)).1,
   (c4_amended_producer_disconnect_destroys (runS 0
      [.connect "h" "H" 0,
       .createStream "h" ⟨none, none, none, none, none, none, none⟩ "S" 0,
       .connect "c" "C" 0, .joinStream "c" "S" none none 0])
      "h" "S" "r" 0 0
      ⟨"h", "H", .host, 0, some "S", none, some "S"⟩
      ⟨"S", "Untitled Stream", "Join my live broadcast!", ⟨"h", "H", none⟩,
        "general", "https://api.dicebear.com/7.x/shapes/svg?seed=S", 1, 1000,
        true, false, none, ["general"], 0, 0, [⟨"c", "C", none, 0⟩]⟩
      (by decide) rfl rfl (by decide) (by decide)).2.2.1⟩

end Airvibe
